import Mathlib

/-!
Verification of the jobdesk-backend retrieval-augmented response pipeline.

The embedding below translates the request path of `add_message`
(src/main.py, lines 252-326) together with the completion-request bodies
built in src/main.py (lines 308-312) and src/clean.py
(`JobDescriptionConverter.call_openrouter_mistral`, lines 28-33).

Conventions of the translation:
* the properties dict of an object returned by the vector index is a
  structure of `Option` fields (`none` models an absent key, so a lookup
  `props[k]` on an absent key is a `KeyError`, modelled as `none`
  propagating to an `exception` outcome);
* external effects (Supabase inserts, the embedding model, the Weaviate
  index, the OpenRouter HTTP POST) are inputs of the pipeline function,
  so one call of `addMessage` is one request against a fixed external
  environment;
* Python's truthiness test `context.strip()` holds exactly when the
  string has a character that is not whitespace, and is translated that
  way (`stripTruthy`);
* similarity scores are rationals; the similarity function used by the
  external index is a parameter.
-/

set_option maxRecDepth 16384

namespace JobDesk

/-- Properties dict of one object returned by the vector index
(`obj.properties` in src/main.py line 273). A `none` field models a key
that is absent from the dict, so that indexing it raises `KeyError`. -/
structure RawProps where
  role : Option String
  experience : Option String
  technicalSkills : Option (List String)
  softSkills : Option (List String)
  responsibilities : Option (List String)
  tools : Option (List String)
  education : Option String
  industry : Option String
deriving DecidableEq

/-- A well-formed job record: all eight properties present, as inserted by
src/embed.py lines 66-75. -/
structure JobRecord where
  role : String
  experience : String
  technicalSkills : List String
  softSkills : List String
  responsibilities : List String
  tools : List String
  education : String
  industry : String
deriving DecidableEq

/-- The properties dict of a well-formed record: every key present. -/
def JobRecord.toProps (r : JobRecord) : RawProps :=
  ⟨some r.role, some r.experience, some r.technicalSkills, some r.softSkills,
   some r.responsibilities, some r.tools, some r.education, some r.industry⟩

/-- The f-string body appended to `context` for one result object
(src/main.py lines 274-284), with the joined-list fields already joined.
Parenthesised to the right; string concatenation is associative, so this
is the same string as the source's flat interpolation. -/
def summaryText (role experience ts ss resp tools edu ind : String) : String :=
  "\nRole: " ++ (role ++
  ("\nExperience: " ++ (experience ++
  ("\nTechnical Skills: " ++ (ts ++
  ("\nSoft Skills: " ++ (ss ++
  ("\nResponsibilities: " ++ (resp ++
  ("\nTools: " ++ (tools ++
  ("\nEducation: " ++ (edu ++
  ("\nIndustry: " ++ (ind ++
  "\n---\n")))))))))))))))

/-- Rendering of one result object in the context loop (src/main.py lines
272-284): each required key is looked up in the properties dict, so a
missing key makes the whole rendering raise (`none`). Python's
`', '.join(xs)` is `String.intercalate ", " xs`. -/
def renderSummary (p : RawProps) : Option String :=
  match p.role, p.experience, p.technicalSkills, p.softSkills,
        p.responsibilities, p.tools, p.education, p.industry with
  | some role, some exp, some ts, some ss, some resp, some tools, some edu, some ind =>
      some (summaryText role exp (String.intercalate ", " ts)
        (String.intercalate ", " ss) (String.intercalate ", " resp)
        (String.intercalate ", " tools) edu ind)
  | _, _, _, _, _, _, _, _ => none

/-- The rendered summary of a well-formed record (total version of
`renderSummary`). -/
def summary (r : JobRecord) : String :=
  summaryText r.role r.experience (String.intercalate ", " r.technicalSkills)
    (String.intercalate ", " r.softSkills)
    (String.intercalate ", " r.responsibilities)
    (String.intercalate ", " r.tools) r.education r.industry

/-- The context accumulation loop of src/main.py lines 271-284:
`context = ""` then `context += <summary>` per result object, in order.
If any object's rendering raises, the whole loop raises (`none`). -/
def assembleContext : List RawProps → Option String
  | [] => some ""
  | p :: ps =>
    match renderSummary p, assembleContext ps with
    | some s, some rest => some (s ++ rest)
    | _, _ => none

/-- The same loop on well-formed records, where rendering never raises:
the fold that the Python `for` loop performs on `context`. -/
def assembleBlock (rs : List JobRecord) : String :=
  rs.foldl (fun acc r => acc ++ summary r) ""

/-- Python's truthiness of `s.strip()` (src/main.py line 296): true
exactly when `s` has a character that is not whitespace. -/
def stripTruthy (s : String) : Bool :=
  s.data.any fun c => !c.isWhitespace

/-- The literal substituted for the context slot when `context.strip()`
is falsy (src/main.py line 296). -/
def noContextFallback : String :=
  "No specific job context needed for this query."

/-- The context slot of the prompt f-string:
`context if context.strip() else "No specific job context needed for this query."`
(src/main.py line 296). -/
def promptContextSlot (context : String) : String :=
  if stripTruthy context then context else noContextFallback

/-- The prompt f-string of src/main.py lines 286-299, as the concatenation
of its literal segments and interpolated parts (parenthesised to the
right). -/
def buildPrompt (userMessage context : String) : String :=
  "\nYou are JobDesk, a friendly career assistant.\n\nUser Message: " ++
  (userMessage ++
  ("\n\nInstructions:\n- If the user is just greeting you, respond with a friendly greeting and ask how you can help with their job search.\n- If the user asks about jobs/careers, use the job descriptions below to help.\n- Keep responses concise and relevant to what the user actually asked.\n\n" ++
  (promptContextSlot context ++
  "\n\nResponse:\n")))

/-- The `message.content` object of one completion choice; `none` models
a missing `content` key. -/
structure ChatMessageJson where
  content : Option String
deriving DecidableEq

/-- One entry of the `choices` array; `none` models a missing `message`
key. -/
structure ChoiceJson where
  message : Option ChatMessageJson
deriving DecidableEq

/-- The parsed completion response body; `none` models a missing
`choices` key. -/
structure CompletionBody where
  choices : Option (List ChoiceJson)
deriving DecidableEq

/-- An HTTP response from the completion service: a status code and the
result of `response.json()` (`none` when the body does not parse). -/
structure HttpResponse where
  statusCode : Nat
  body : Option CompletionBody
deriving DecidableEq

/-- The extraction `response.json()["choices"][0]["message"]["content"]`
(src/main.py line 315): any missing key, parse failure, or empty
`choices` array raises, modelled as `none`. -/
def extractReply (r : HttpResponse) : Option String :=
  match r.body with
  | none => none
  | some b =>
    match b.choices with
    | none => none
    | some [] => none
    | some (c :: _) =>
      match c.message with
      | none => none
      | some m => m.content

/-- Sentinel assigned on a non-200 status (src/main.py line 317). -/
def sentinelFetch : String := "⚠️ Error: Could not fetch response from LLM."

/-- Sentinel assigned in the `except` branch: transport error or any
exception while reading the body (src/main.py line 320). -/
def sentinelGenerate : String := "⚠️ Error: Could not generate response at the moment."

/-- The generation step of src/main.py lines 301-320. The argument is the
outcome of `requests.post`: `Except.error` is a transport error. The
whole block is wrapped in `try/except Exception`, so the step always
produces a string. -/
def generateReply (post : Except Unit HttpResponse) : String :=
  match post with
  | .error _ => sentinelGenerate
  | .ok r =>
    if r.statusCode = 200 then
      match extractReply r with
      | some content => content
      | none => sentinelGenerate
    else
      sentinelFetch

/-- Holds whenever the generation call failed: transport error, non-200
status, or a 200 response whose body does not yield a reply. -/
def genFailure (post : Except Unit HttpResponse) : Bool :=
  match post with
  | .error _ => true
  | .ok r => !(r.statusCode = 200 && (extractReply r).isSome)

/-- JSON body of a completion request: `model`, `messages` (role-content
pairs), `temperature`, optional `max_tokens`. -/
structure CompletionRequest where
  model : String
  messages : List (String × String)
  temperature : ℚ
  maxTokens : Option Nat
deriving DecidableEq

/-- The request body the conversational path sends (src/main.py lines
308-312): temperature 0.4, no max_tokens. -/
def chatCompletionRequest (prompt : String) : CompletionRequest :=
  ⟨"mistralai/mistral-7b-instruct", [("user", prompt)], 0.4, none⟩

/-- The request body of the structured-extraction path,
`JobDescriptionConverter.call_openrouter_mistral` (src/clean.py lines
28-33): temperature 0.1, max_tokens 4096. -/
def extractionCompletionRequest (prompt : String) : CompletionRequest :=
  ⟨"mistralai/mistral-7b-instruct", [("user", prompt)], 0.1, some 4096⟩

/-- One object stored in the external vector index: its properties dict
and its stored vector (src/embed.py line 78 inserts both). -/
structure IndexedObject where
  props : RawProps
  vector : List ℚ
deriving DecidableEq

/-- One result object of a near-vector query, carrying the similarity
score the index computed for it. -/
structure ScoredObject where
  props : RawProps
  score : ℚ
deriving DecidableEq

/-- Stable descending insertion by score: a later element is placed after
every earlier element with an equal or higher score. -/
def insertDesc (a : ScoredObject) : List ScoredObject → List ScoredObject
  | [] => [a]
  | b :: bs => if b.score < a.score then a :: b :: bs else b :: insertDesc a bs

/-- Stable sort by descending score (ties keep index order). -/
def sortDesc (l : List ScoredObject) : List ScoredObject :=
  l.foldl (fun acc a => insertDesc a acc) []

/-- Modelled from the spec: the external vector index's near-vector query
(spec section 6, `query(vector, limit)`; section 4.2, strategy (a)). The
index itself is not repository code; per the spec it scores every stored
object against the query vector with its own similarity function `sim`,
orders descending (ties by insertion order), and returns at most `limit`
objects. The call site `collection.query.near_vector(near_vector=vector,
limit=3)` (src/main.py line 269) passes no score threshold, so no
filtering besides the truncation to `limit` occurs. -/
def nearVector (sim : List ℚ → List ℚ → ℚ) (index : List IndexedObject)
    (q : List ℚ) (limit : Nat) : List ScoredObject :=
  (sortDesc (index.map fun o => ⟨o.props, sim q o.vector⟩)).take limit

/-- Dot product: one concrete similarity function used to instantiate
`nearVector` on concrete inputs. -/
def dot (a b : List ℚ) : ℚ :=
  (List.zipWith (fun x y => x * y) a b).sum

/-- One row of the `messages` table (src/main.py lines 264 and 323). -/
structure StoredMessage where
  conversationId : String
  role : String
  content : String
deriving DecidableEq

/-- Outcome of one `add_message` request: an assistant reply returned to
the caller, an `HTTPException` with its status code, or an unhandled
exception escaping the handler. -/
inductive Outcome where
  | reply (text : String)
  | httpError (status : Nat)
  | exception
deriving DecidableEq

/-- The external world one `add_message` request runs against: the
conversation ownership check, the two Supabase inserts, the embedding
model, the vector index (its reachability, similarity function and
contents), and the completion service. -/
structure PipelineEnv where
  ownerOk : Bool
  insertUserOk : Bool
  embedResult : Except Unit (List ℚ)
  indexUp : Bool
  sim : List ℚ → List ℚ → ℚ
  index : List IndexedObject
  post : CompletionRequest → Except Unit HttpResponse
  insertAssistantOk : Bool

/-- The request path of `add_message` (src/main.py lines 252-326) after
header parsing and token validation, as a function of the external
environment and of the persisted `messages` rows. Returns the outcome
and the final persisted rows:
* failed ownership check raises `HTTPException(404)` (lines 259-261);
* the user turn is inserted (line 264); a failing insert raises
  `HTTPException(500)` (line 266);
* `get_embedding` (line 268) and the near-vector query (line 269) are
  outside any `try`, so their failures escape as unhandled exceptions;
* the context loop (lines 271-284) raises `KeyError` on a result object
  with a missing property, also unhandled;
* generation (lines 301-320) always yields a string;
* the assistant insert (lines 322-326) raises `HTTPException(500)` on
  failure, else its row is returned. -/
def addMessage (env : PipelineEnv) (store : List StoredMessage)
    (conversationId content : String) : Outcome × List StoredMessage :=
  if !env.ownerOk then (.httpError 404, store)
  else if !env.insertUserOk then (.httpError 500, store)
  else
    let store1 := store ++ [⟨conversationId, "user", content⟩]
    match env.embedResult with
    | .error _ => (.exception, store1)
    | .ok vector =>
      if !env.indexUp then (.exception, store1)
      else
        let results := nearVector env.sim env.index vector 3
        match assembleContext (results.map fun o => o.props) with
        | none => (.exception, store1)
        | some context =>
          let prompt := buildPrompt content context
          let reply := generateReply (env.post (chatCompletionRequest prompt))
          if !env.insertAssistantOk then (.httpError 500, store1)
          else (.reply reply, store1 ++ [⟨conversationId, "assistant", reply⟩])

/-- Scores of the ranked result, in result order. -/
def rankScores (sim : List ℚ → List ℚ → ℚ) (index : List IndexedObject)
    (q : List ℚ) (limit : Nat) : List ℚ :=
  (nearVector sim index q limit).map fun r => r.score

/-- In-order concatenation of a list of strings. -/
def concatStrings (l : List String) : String :=
  l.foldr (fun a b => a ++ b) ""

/-- The needle occurs verbatim inside the haystack. -/
def Substr (needle hay : String) : Prop :=
  ∃ x y, hay = x ++ (needle ++ y)

lemma substr_head (n y : String) : Substr n (n ++ y) :=
  ⟨"", y, by rw [String.empty_append]⟩

lemma substr_app_left (x : String) {n h : String} (hs : Substr n h) :
    Substr n (x ++ h) := by
  obtain ⟨a, b, rfl⟩ := hs
  exact ⟨x ++ a, b, by rw [String.append_assoc]⟩

lemma substr_app_right (y : String) {n h : String} (hs : Substr n h) :
    Substr n (h ++ y) := by
  obtain ⟨a, b, rfl⟩ := hs
  exact ⟨a, b ++ y, by simp [String.append_assoc]⟩

lemma substr_trans {a b c : String} (h1 : Substr a b) (h2 : Substr b c) :
    Substr a c := by
  obtain ⟨x, y, rfl⟩ := h1
  obtain ⟨u, v, rfl⟩ := h2
  exact ⟨u ++ x, y ++ v, by simp [String.append_assoc]⟩

lemma foldl_append_shift (rs : List JobRecord) (a : String) :
    rs.foldl (fun acc r => acc ++ summary r) a =
      a ++ rs.foldl (fun acc r => acc ++ summary r) "" := by
  induction rs generalizing a with
  | nil => simp [String.append_empty]
  | cons r t ih =>
    simp only [List.foldl_cons]
    rw [ih (a ++ summary r), ih ("" ++ summary r), String.empty_append,
      String.append_assoc]

lemma assembleBlock_cons (r : JobRecord) (t : List JobRecord) :
    assembleBlock (r :: t) = summary r ++ assembleBlock t := by
  unfold assembleBlock
  simp only [List.foldl_cons]
  rw [foldl_append_shift, String.empty_append]

lemma assembleBlock_eq_concat (rs : List JobRecord) :
    assembleBlock rs = concatStrings (rs.map summary) := by
  induction rs with
  | nil => rfl
  | cons r t ih => rw [assembleBlock_cons, ih]; rfl

lemma stripTruthy_append (a b : String) :
    stripTruthy (a ++ b) = (stripTruthy a || stripTruthy b) := by
  simp [stripTruthy, String.data_append, List.any_append]

lemma stripTruthy_summary (r : JobRecord) : stripTruthy (summary r) = true := by
  have h : stripTruthy "\nRole: " = true := by decide
  unfold summary summaryText
  rw [stripTruthy_append, h, Bool.true_or]

lemma stripTruthy_assembleBlock_cons (r : JobRecord) (t : List JobRecord) :
    stripTruthy (assembleBlock (r :: t)) = true := by
  rw [assembleBlock_cons, stripTruthy_append, stripTruthy_summary, Bool.true_or]

lemma summary_data_head (r : JobRecord) :
    ∃ l, (summary r).data = '\n' :: l := by
  unfold summary summaryText
  rw [String.data_append,
    show ("\nRole: " : String).data = '\n' :: ("Role: " : String).data from by decide,
    List.cons_append]
  exact ⟨_, rfl⟩

lemma assembleBlock_cons_ne_fallback (r : JobRecord) (t : List JobRecord) :
    assembleBlock (r :: t) ≠ noContextFallback := by
  intro h
  obtain ⟨l, hl⟩ := summary_data_head r
  have hd : (assembleBlock (r :: t)).data = noContextFallback.data :=
    congrArg String.data h
  rw [assembleBlock_cons, String.data_append, hl, List.cons_append,
    show noContextFallback.data =
      'N' :: ("o specific job context needed for this query." : String).data
      from by decide] at hd
  have hc : '\n' = 'N' := List.head_eq_of_cons_eq hd
  exact absurd hc (by decide)

lemma promptContextSlot_nil :
    promptContextSlot (assembleBlock []) = noContextFallback := rfl

lemma promptContextSlot_cons (r : JobRecord) (t : List JobRecord) :
    promptContextSlot (assembleBlock (r :: t)) = assembleBlock (r :: t) := by
  unfold promptContextSlot
  rw [stripTruthy_assembleBlock_cons]
  rfl

lemma substr_summary_assembleBlock {r : JobRecord} {rs : List JobRecord}
    (h : r ∈ rs) : Substr (summary r) (assembleBlock rs) := by
  induction rs with
  | nil => cases h
  | cons a t ih =>
    rw [assembleBlock_cons]
    rcases List.mem_cons.mp h with h1 | h2
    · subst h1; exact substr_head _ _
    · exact substr_app_left _ (ih h2)

lemma substr_slot_buildPrompt (msg c : String) :
    Substr (promptContextSlot c) (buildPrompt msg c) := by
  unfold buildPrompt
  exact substr_app_left _ (substr_app_left _ (substr_app_left _ (substr_head _ _)))

lemma length_insertDesc (a : ScoredObject) (l : List ScoredObject) :
    (insertDesc a l).length = l.length + 1 := by
  induction l with
  | nil => rfl
  | cons b bs ih =>
    unfold insertDesc
    split
    · simp
    · simp [ih]

lemma length_sortDesc (l : List ScoredObject) :
    (sortDesc l).length = l.length := by
  suffices h : ∀ acc : List ScoredObject,
      (l.foldl (fun acc a => insertDesc a acc) acc).length = l.length + acc.length by
    simpa using h []
  induction l with
  | nil => intro acc; simp
  | cons a t ih =>
    intro acc
    simp only [List.foldl_cons, List.length_cons]
    rw [ih (insertDesc a acc), length_insertDesc]
    omega

/-- Properties of the ranked result, in result order. -/
def rankProps (sim : List ℚ → List ℚ → ℚ) (index : List IndexedObject)
    (q : List ℚ) (limit : Nat) : List RawProps :=
  (nearVector sim index q limit).map fun r => r.props

/-- A well-formed sample record (from end-to-end scenario 2 of the spec). -/
def sampleRecord : JobRecord :=
  ⟨"Data Scientist", "2-4 years", ["Python", "SQL"], ["communication"],
   ["build models"], ["pandas"], "B.Tech", "Technology"⟩

/-- A properties dict with the required `role` key absent. -/
def malformedProps : RawProps :=
  ⟨none, some "2-4 years", some ["Python"], some ["communication"],
   some ["build models"], some ["pandas"], some "B.Tech", some "Technology"⟩

/-- An index holding one object whose stored vector points away from the
sample query vector, so its similarity score is negative. -/
def coldIndex : List IndexedObject := [⟨sampleRecord.toProps, [-1]⟩]

/-- A similarity function that scores everything 0. -/
def zeroSim : List ℚ → List ℚ → ℚ := fun _ _ => 0

/-- A completion service that never answers (transport error). -/
def idlePost : CompletionRequest → Except Unit HttpResponse :=
  fun _ => Except.error ()

/-- An environment in which everything works except the vector index,
which is unreachable. -/
def envIndexDown : PipelineEnv :=
  ⟨true, true, Except.ok [1], false, zeroSim, [], idlePost, true⟩

/-- An environment in which everything works and the index returns one
object whose properties dict is missing the `role` key. -/
def envMalformed : PipelineEnv :=
  ⟨true, true, Except.ok [1], true, zeroSim, [⟨malformedProps, [1]⟩], idlePost, true⟩

/-- A well-formed completion response body carrying one choice. -/
def wellFormedBody : CompletionBody := ⟨some [⟨some ⟨some "hello"⟩⟩]⟩

/-- C1 (amended): for every similarity function, index, query vector and
k ≥ 0, the near-vector ranking step returns at most k ranked candidates.
The second half of the claim — that every returned candidate scores
strictly above a configured positive relevance floor — is false of the
code: the query at src/main.py line 269 passes no score threshold, so no
floor is applied (see the counterexample). -/
theorem c1_rank_at_most_k (sim : List ℚ → List ℚ → ℚ)
    (index : List IndexedObject) (q : List ℚ) (k : Nat) :
    (nearVector sim index q k).length ≤ k := by
  unfold nearVector
  exact List.length_take_le _ _

/-- C1 counterexample: a concrete pool with one candidate whose cosine
score against the query is −1. The ranking step returns it anyway, and
−1 is not above 0, hence not above any positive relevance floor — so
"candidates at or below the floor never appear" fails on the code. -/
theorem c1_counterexample :
    rankScores dot coldIndex [1] 3 = [-1] ∧ ¬ ((0 : ℚ) < -1) := by
  constructor
  · simp [rankScores, nearVector, sortDesc, insertDesc, dot, coldIndex]
  · norm_num

/-- C3 (amended): every generation-stage failure — transport error,
non-success status, or malformed response body — yields one of the two
fixed sentinel reply strings, and the generation step never raises (it
is a total function into reply strings). The original claim's "exactly
the single fixed failure sentinel" is false: the code has two distinct
sentinels, one for a non-200 status (src/main.py line 317) and one for
the `except` branch (line 320) — see the counterexample. -/
theorem c3_generation_sentinels (post : Except Unit HttpResponse)
    (h : genFailure post = true) :
    generateReply post = sentinelFetch ∨ generateReply post = sentinelGenerate := by
  cases post with
  | error e => exact Or.inr rfl
  | ok r =>
    by_cases h200 : r.statusCode = 200
    · cases he : extractReply r with
      | none =>
        right
        simp [generateReply, h200, he]
      | some s =>
        exfalso
        simp [genFailure, h200, he] at h
    · left
      simp [generateReply, h200]

/-- C3 witness: a transport error is a generation failure and yields a
sentinel. -/
theorem c3_witness :
    generateReply (Except.error ()) = sentinelFetch ∨
    generateReply (Except.error ()) = sentinelGenerate :=
  c3_generation_sentinels (Except.error ()) rfl

/-- C3 counterexample: a non-200 response and a transport error yield two
different sentinel strings, so there is no single fixed failure sentinel. -/
theorem c3_counterexample :
    generateReply (Except.ok ⟨500, some wellFormedBody⟩) = sentinelFetch ∧
    generateReply (Except.error ()) = sentinelGenerate ∧
    sentinelFetch ≠ sentinelGenerate := by
  refine ⟨rfl, rfl, ?_⟩
  decide

/-- C7: the ranking step is deterministic — two calls with the same
similarity function, the same index contents and the same query vector
return the same candidates, in the same order, with the same scores. -/
theorem c7_rank_deterministic (sim : List ℚ → List ℚ → ℚ)
    (q q' : List ℚ) (index index' : List IndexedObject) (k : Nat)
    (hq : q = q') (hi : index = index') :
    nearVector sim index q k = nearVector sim index' q' k ∧
    rankProps sim index q k = rankProps sim index' q' k ∧
    rankScores sim index q k = rankScores sim index' q' k := by
  subst hq; subst hi
  exact ⟨rfl, rfl, rfl⟩

/-- C7 witness: determinism instantiated at a concrete query and index. -/
theorem c7_witness :
    nearVector dot coldIndex [1] 3 = nearVector dot coldIndex [1] 3 ∧
    rankProps dot coldIndex [1] 3 = rankProps dot coldIndex [1] 3 ∧
    rankScores dot coldIndex [1] 3 = rankScores dot coldIndex [1] 3 :=
  c7_rank_deterministic dot [1] [1] coldIndex coldIndex 3 rfl rfl

/-- C8: the conversational path (src/main.py line 311) sends its
completion request with temperature 0.4, while the structured-extraction
path (src/clean.py line 31) uses the lower, more deterministic 0.1. -/
theorem c8_temperatures (prompt extractionPrompt : String) :
    (chatCompletionRequest prompt).temperature = 0.4 ∧
    (extractionCompletionRequest extractionPrompt).temperature = 0.1 ∧
    (extractionCompletionRequest extractionPrompt).temperature <
      (chatCompletionRequest prompt).temperature := by
  refine ⟨rfl, rfl, ?_⟩
  show (0.1 : ℚ) < 0.4
  norm_num

/-- C2 (amended): for every request in which the vector index query
fails, the pipeline fails: the near-vector call at src/main.py line 269
is outside every `try`, so the exception escapes the handler and no
reply is produced. The claimed fallback to a lexical term-frequency
strategy does not exist in the source, and no empty-pool degradation
happens either. -/
theorem c2_index_failure_escapes (env : PipelineEnv)
    (store : List StoredMessage) (cid content : String) (v : List ℚ)
    (h1 : env.ownerOk = true) (h2 : env.insertUserOk = true)
    (h3 : env.embedResult = Except.ok v) (h4 : env.indexUp = false) :
    (addMessage env store cid content).fst = Outcome.exception := by
  simp [addMessage, h1, h2, h3, h4]

/-- C2 witness: the amended theorem at a concrete environment whose index
is unreachable. -/
theorem c2_witness :
    (addMessage envIndexDown [] "c1" "hello").fst = Outcome.exception :=
  c2_index_failure_escapes envIndexDown [] "c1" "hello" [1] rfl rfl rfl rfl

/-- C2 counterexample: a concrete request with the vector index
unreachable and every other collaborator healthy ends in an unhandled
exception — not in a reply — refuting "the pipeline does not fail ...
still producing a reply". -/
theorem c2_counterexample :
    (addMessage envIndexDown [] "c1" "hello").fst = Outcome.exception := rfl

/-- C6 (amended): a pool record missing a required field is not excluded:
rendering it in the context loop (src/main.py line 275) raises `KeyError`
outside every `try`, so the whole request fails with an unhandled
exception instead of completing with a reply. -/
theorem c6_malformed_escapes (env : PipelineEnv) (store : List StoredMessage)
    (cid content : String) (v : List ℚ)
    (h1 : env.ownerOk = true) (h2 : env.insertUserOk = true)
    (h3 : env.embedResult = Except.ok v) (h4 : env.indexUp = true)
    (h5 : assembleContext (rankProps env.sim env.index v 3) = none) :
    (addMessage env store cid content).fst = Outcome.exception := by
  have h5x : assembleContext
      ((nearVector env.sim env.index v 3).map fun o => o.props) = none := h5
  simp [addMessage, h1, h2, h3, h4, h5x]

/-- C6 witness: the amended theorem at a concrete environment whose index
returns one record with the `role` key missing. -/
theorem c6_witness :
    (addMessage envMalformed [] "c1" "hello").fst = Outcome.exception :=
  c6_malformed_escapes envMalformed [] "c1" "hello" [1] rfl rfl rfl rfl rfl

/-- C6 counterexample: a concrete pool containing a record with a missing
required field makes the request end in an unhandled exception, refuting
"that record is excluded ... and the request as a whole still completes
with a reply". -/
theorem c6_counterexample :
    (addMessage envMalformed [] "c1" "hello").fst = Outcome.exception := rfl

/-- C10: once the ownership check and the user-turn insert succeed
(src/main.py lines 259-266), the user turn sits in the persisted rows no
matter how the rest of the pipeline ends — embedding, ranking, rendering
and the assistant insert run after it, and no branch removes it, so an
error outcome leaves the turn stored (the operation is not atomic). -/
theorem c10_user_turn_persisted (env : PipelineEnv)
    (store : List StoredMessage) (cid content : String)
    (h1 : env.ownerOk = true) (h2 : env.insertUserOk = true) :
    StoredMessage.mk cid "user" content ∈ (addMessage env store cid content).snd ∧
    ∃ rest, (addMessage env store cid content).snd =
      (store ++ [StoredMessage.mk cid "user" content]) ++ rest := by
  have hshape : ∃ rest, (addMessage env store cid content).snd =
      (store ++ [StoredMessage.mk cid "user" content]) ++ rest := by
    unfold addMessage
    rw [h1, h2]
    cases henv : env.embedResult with
    | error e => exact ⟨[], by simp⟩
    | ok v =>
      cases hiu : env.indexUp with
      | false => exact ⟨[], by simp⟩
      | true =>
        cases hac : assembleContext
            ((nearVector env.sim env.index v 3).map fun o => o.props) with
        | none => exact ⟨[], by simp [hac]⟩
        | some ctx =>
          cases hia : env.insertAssistantOk with
          | false => exact ⟨[], by simp [hac, hia]⟩
          | true =>
            exact ⟨[⟨cid, "assistant",
              generateReply (env.post (chatCompletionRequest
                (buildPrompt content ctx)))⟩], by simp [hac, hia]⟩
  obtain ⟨rest, hr⟩ := hshape
  refine ⟨?_, ⟨rest, hr⟩⟩
  rw [hr]
  simp

/-- C10 witness: with the index unreachable the request ends in an
unhandled exception, yet the user turn is persisted. -/
theorem c10_witness :
    StoredMessage.mk "c1" "user" "hello" ∈
      (addMessage envIndexDown [] "c1" "hello").snd :=
  (c10_user_turn_persisted envIndexDown [] "c1" "hello" rfl rfl).1

lemma substr_tail (x n : String) : Substr n (x ++ n) :=
  ⟨x, "", by rw [String.append_empty]⟩

/-- The persona line of the prompt template. -/
def personaLine : String := "You are JobDesk, a friendly career assistant."

/-- The behavioral instructions of the prompt template. -/
def instructionsText : String :=
  "Instructions:\n- If the user is just greeting you, respond with a friendly greeting and ask how you can help with their job search.\n- If the user asks about jobs/careers, use the job descriptions below to help.\n- Keep responses concise and relevant to what the user actually asked."

lemma substr_fields_summaryText (a b c d e f g h : String) :
    Substr a (summaryText a b c d e f g h) ∧
    Substr b (summaryText a b c d e f g h) ∧
    Substr c (summaryText a b c d e f g h) ∧
    Substr d (summaryText a b c d e f g h) ∧
    Substr e (summaryText a b c d e f g h) ∧
    Substr f (summaryText a b c d e f g h) ∧
    Substr g (summaryText a b c d e f g h) ∧
    Substr h (summaryText a b c d e f g h) := by
  unfold summaryText
  refine ⟨?_, ?_, ?_, ?_, ?_, ?_, ?_, ?_⟩ <;>
    repeat first | exact substr_head _ _ | apply substr_app_left

lemma substr_delim_summaryText (a b c d e f g h : String) :
    Substr "\n---\n" (summaryText a b c d e f g h) := by
  unfold summaryText
  repeat first | exact substr_tail _ _ | apply substr_app_left

lemma substr_persona_buildPrompt (msg c : String) :
    Substr personaLine (buildPrompt msg c) := by
  unfold buildPrompt
  apply substr_app_right
  exact ⟨"\n", "\n\nUser Message: ", by decide⟩

lemma substr_userMessage_buildPrompt (msg c : String) :
    Substr ("User Message: " ++ msg) (buildPrompt msg c) := by
  unfold buildPrompt
  refine ⟨"\nYou are JobDesk, a friendly career assistant.\n\n",
    "\n\nInstructions:\n- If the user is just greeting you, respond with a friendly greeting and ask how you can help with their job search.\n- If the user asks about jobs/careers, use the job descriptions below to help.\n- Keep responses concise and relevant to what the user actually asked.\n\n" ++
    (promptContextSlot c ++ "\n\nResponse:\n"), ?_⟩
  rw [show ("\nYou are JobDesk, a friendly career assistant.\n\nUser Message: " : String) =
    "\nYou are JobDesk, a friendly career assistant.\n\n" ++ "User Message: " from by decide,
    String.append_assoc, ← String.append_assoc "User Message: " msg]

lemma substr_instructions_buildPrompt (msg c : String) :
    Substr instructionsText (buildPrompt msg c) := by
  unfold buildPrompt
  apply substr_app_left
  apply substr_app_left
  apply substr_app_right
  exact ⟨"\n\n", "\n\n", by decide⟩

lemma substr_response_buildPrompt (msg c : String) :
    Substr "Response:" (buildPrompt msg c) := by
  unfold buildPrompt
  apply substr_app_left
  apply substr_app_left
  apply substr_app_left
  apply substr_app_left
  exact ⟨"\n\n", "\n", by decide⟩

/-- C4: for zero ranked candidates the context loop yields the absent
marker — the empty string, whose stripped form is empty — and for n > 0
it yields the in-order concatenation of exactly n rendered summaries
(one per candidate, each carrying the visible delimiter), whose stripped
form is never empty, so the absent marker is distinguishable from every
context assembled from at least one record. -/
theorem c4_assemble (rs : List JobRecord) :
    (rs = [] → assembleBlock rs = "" ∧ stripTruthy (assembleBlock rs) = false) ∧
    (rs ≠ [] → assembleBlock rs = concatStrings (rs.map summary) ∧
      ((rs.map summary).length = rs.length ∧
      (stripTruthy (assembleBlock rs) = true ∧
      ∀ r ∈ rs, Substr "\n---\n" (summary r)))) := by
  constructor
  · rintro rfl
    exact ⟨rfl, rfl⟩
  · intro hne
    refine ⟨assembleBlock_eq_concat rs, by simp, ?_, ?_⟩
    · cases rs with
      | nil => exact absurd rfl hne
      | cons r t => exact stripTruthy_assembleBlock_cons r t
    · intro r _
      exact substr_delim_summaryText _ _ _ _ _ _ _ _

/-- C4 witness: the assembler evaluated on the empty sequence and on a
one-record sequence. -/
theorem c4_witness :
    (assembleBlock [] = "" ∧ stripTruthy (assembleBlock []) = false) ∧
    (assembleBlock [sampleRecord] = concatStrings ([sampleRecord].map summary) ∧
      stripTruthy (assembleBlock [sampleRecord]) = true) :=
  ⟨(c4_assemble []).1 rfl,
   ((c4_assemble [sampleRecord]).2 (by simp)).1,
   (((c4_assemble [sampleRecord]).2 (by simp)).2.2).1⟩

/-- C5: the built prompt always carries the persona framing, the literal
user message, the behavioral instructions and the response cue; with an
absent context it carries the fixed fallback phrase, and with a non-empty
ranked sequence it carries every rendered field of every ranked record
verbatim. -/
theorem c5_prompt_template (msg : String) (rs : List JobRecord) :
    Substr personaLine (buildPrompt msg (assembleBlock rs)) ∧
    Substr ("User Message: " ++ msg) (buildPrompt msg (assembleBlock rs)) ∧
    Substr instructionsText (buildPrompt msg (assembleBlock rs)) ∧
    Substr "Response:" (buildPrompt msg (assembleBlock rs)) ∧
    (rs = [] → Substr noContextFallback (buildPrompt msg (assembleBlock rs))) ∧
    (∀ r ∈ rs,
      Substr r.role (buildPrompt msg (assembleBlock rs)) ∧
      Substr r.experience (buildPrompt msg (assembleBlock rs)) ∧
      Substr (String.intercalate ", " r.technicalSkills)
        (buildPrompt msg (assembleBlock rs)) ∧
      Substr (String.intercalate ", " r.softSkills)
        (buildPrompt msg (assembleBlock rs)) ∧
      Substr (String.intercalate ", " r.responsibilities)
        (buildPrompt msg (assembleBlock rs)) ∧
      Substr (String.intercalate ", " r.tools)
        (buildPrompt msg (assembleBlock rs)) ∧
      Substr r.education (buildPrompt msg (assembleBlock rs)) ∧
      Substr r.industry (buildPrompt msg (assembleBlock rs))) := by
  refine ⟨substr_persona_buildPrompt _ _, substr_userMessage_buildPrompt _ _,
    substr_instructions_buildPrompt _ _, substr_response_buildPrompt _ _, ?_, ?_⟩
  · rintro rfl
    have hs := substr_slot_buildPrompt msg (assembleBlock [])
    rwa [promptContextSlot_nil] at hs
  · intro r hr
    have hblock : Substr (assembleBlock rs) (buildPrompt msg (assembleBlock rs)) := by
      cases rs with
      | nil => cases hr
      | cons a t =>
        have hs := substr_slot_buildPrompt msg (assembleBlock (a :: t))
        rwa [promptContextSlot_cons] at hs
    have hsum : Substr (summary r) (buildPrompt msg (assembleBlock rs)) :=
      substr_trans (substr_summary_assembleBlock hr) hblock
    have hf := substr_fields_summaryText r.role r.experience
      (String.intercalate ", " r.technicalSkills)
      (String.intercalate ", " r.softSkills)
      (String.intercalate ", " r.responsibilities)
      (String.intercalate ", " r.tools) r.education r.industry
    exact ⟨substr_trans hf.1 hsum, substr_trans hf.2.1 hsum,
      substr_trans hf.2.2.1 hsum, substr_trans hf.2.2.2.1 hsum,
      substr_trans hf.2.2.2.2.1 hsum, substr_trans hf.2.2.2.2.2.1 hsum,
      substr_trans hf.2.2.2.2.2.2.1 hsum, substr_trans hf.2.2.2.2.2.2.2 hsum⟩

/-- C5 witness: with no ranked records the concrete prompt contains the
fallback phrase. -/
theorem c5_witness :
    Substr noContextFallback (buildPrompt "hi" (assembleBlock [])) :=
  (c5_prompt_template "hi" []).2.2.2.2.1 rfl

/-- C9: the context slot of the built prompt is the fallback phrase
exactly when ranking returned zero records; with at least one record the
slot is the assembled block — each rendered summary carries the
non-whitespace delimiter, so the block never strips to empty — and the
block is never the fallback phrase, hence the prompt carries exactly one
of the two, never both and never neither. -/
theorem c9_fallback_iff_no_records (msg : String) (rs : List JobRecord) :
    (promptContextSlot (assembleBlock rs) = noContextFallback ↔ rs = []) ∧
    (rs = [] → Substr noContextFallback (buildPrompt msg (assembleBlock rs))) ∧
    (rs ≠ [] → promptContextSlot (assembleBlock rs) = assembleBlock rs ∧
      assembleBlock rs ≠ noContextFallback ∧
      Substr (assembleBlock rs) (buildPrompt msg (assembleBlock rs))) := by
  refine ⟨⟨?_, ?_⟩, ?_, ?_⟩
  · intro h
    by_contra hne
    cases rs with
    | nil => exact hne rfl
    | cons r t =>
      rw [promptContextSlot_cons] at h
      exact assembleBlock_cons_ne_fallback r t h
  · rintro rfl
    exact promptContextSlot_nil
  · rintro rfl
    have hs := substr_slot_buildPrompt msg (assembleBlock [])
    rwa [promptContextSlot_nil] at hs
  · intro hne
    cases rs with
    | nil => exact absurd rfl hne
    | cons r t =>
      refine ⟨promptContextSlot_cons r t, assembleBlock_cons_ne_fallback r t, ?_⟩
      have hs := substr_slot_buildPrompt msg (assembleBlock (r :: t))
      rwa [promptContextSlot_cons] at hs

/-- C9 witness: with zero ranked records the concrete slot is the
fallback phrase. -/
theorem c9_witness :
    promptContextSlot (assembleBlock []) = noContextFallback :=
  ((c9_fallback_iff_no_records "hi" []).1).mpr rfl

end JobDesk
